import Mathlib

/-!
Shallow embedding of the doctor-availability upsert workflow
(`src/app/(protected)/doctors/_components/upsert-doctor-form.tsx`) and of the
dashboard stats card (`src/app/(protected)/dashboard/_components/stats-card.tsx`)
of the clinic-scheduling application, together with theorems settling the
specification's claims about them.

JavaScript strings are modelled as Lean `String`s; the JavaScript string
operations the component uses (`String.prototype.trim`, the `<` comparison by
code units, `parseInt`, `Number.prototype.toString`) are modelled explicitly
over the character data so that they compute by kernel reduction.  JavaScript
numbers are IEEE-754 binary64 values; every binary64 value is a rational, so a
number is carried as the exact rational it denotes, and the arithmetic the
component performs (`/ 100`, `* 100`) is modelled by `jsDiv`/`jsMul`, which
compute the exact rational result and then round it to the nearest binary64
value (ties to even) like the hardware does.
-/

namespace Clinic

/-- Model of `String.prototype.trim`: removes leading and trailing whitespace. -/
def jsTrim (s : String) : String :=
  ⟨((s.data.dropWhile Char.isWhitespace).reverse.dropWhile Char.isWhitespace).reverse⟩

/-- Lexicographic comparison of character lists by code point, modelling the
JavaScript `<` operator on strings (code-unit order; all strings appearing in
the component are ASCII, where code units and code points agree). -/
def jsCharListLt : List Char → List Char → Bool
  | _, [] => false
  | [], _ :: _ => true
  | a :: as, b :: bs =>
    if a.toNat < b.toNat then true
    else if b.toNat < a.toNat then false
    else jsCharListLt as bs

/-- Model of the JavaScript `<` operator on strings. -/
def jsStringLt (a b : String) : Bool :=
  jsCharListLt a.data b.data

/-- Numeric value of a list of decimal digit characters, most significant first. -/
def digitsVal (ds : List Char) : Nat :=
  ds.foldl (fun acc c => acc * 10 + (c.toNat - 48)) 0

/-- Model of JavaScript `parseInt(s)` (radix 10): skip leading whitespace, read an
optional sign and then the longest prefix of decimal digits; `none` models `NaN`
(no digits found). -/
def jsParseInt (s : String) : Option Int :=
  match s.data.dropWhile Char.isWhitespace with
  | '-' :: rest =>
    let ds := rest.takeWhile Char.isDigit
    if ds.isEmpty then none else some (-(digitsVal ds : Int))
  | '+' :: rest =>
    let ds := rest.takeWhile Char.isDigit
    if ds.isEmpty then none else some ((digitsVal ds : Int))
  | rest =>
    let ds := rest.takeWhile Char.isDigit
    if ds.isEmpty then none else some ((digitsVal ds : Int))

/-- Round-half-even of the fraction a/b (b positive): the integer rounding used
by IEEE-754 round-to-nearest. -/
def rneNat (a b : Nat) : Nat :=
  let q := a / b
  let r := a % b
  if 2 * r < b then q
  else if b < 2 * r then q + 1
  else if q % 2 = 0 then q else q + 1

/-- Number of doublings of b that still fit below a; computes floor(log2(a/b))
for a ≥ b.  Fuel-bounded structural recursion so that it evaluates by kernel
reduction; the fuel of 1200 covers the whole binary64 exponent range. -/
def log2Fuel : Nat → Nat → Nat → Nat
  | _, _, 0 => 0
  | a, b, fuel + 1 => if 2 * b ≤ a then log2Fuel a (2 * b) fuel + 1 else 0

/-- Number of doublings of a needed to reach b; computes -floor(log2(a/b)) for
a < b, with the same fuel bound. -/
def clog2Fuel : Nat → Nat → Nat → Nat
  | _, _, 0 => 0
  | a, b, fuel + 1 => if b ≤ a then 0 else clog2Fuel (2 * a) b fuel + 1

/-- floor(log2(a/b)) for positive a and b. -/
def floorLog2 (a b : Nat) : Int :=
  if b ≤ a then (log2Fuel a b 1200 : Int) else -(clog2Fuel a b 1200 : Int)

/-- The exponent of the binary64 grid on which a positive value a/b is rounded:
52 below its floor-log2 (53-bit significands), floored at -1074 (the subnormal
granularity). -/
def f64Exp (a b : Nat) : Int :=
  max (floorLog2 a b - 52) (-1074)

/-- The fraction a/b rounded half-even onto the grid of integer multiples of
2^e, as an exact rational. -/
def roundAtExp (a b : Nat) (e : Int) : ℚ :=
  if 0 ≤ e then (rneNat a (b * 2 ^ e.toNat) : ℚ) * 2 ^ e.toNat
  else (rneNat (a * 2 ^ (-e).toNat) b : ℚ) / 2 ^ (-e).toNat

/-- The value of the IEEE-754 binary64 number nearest the positive fraction a/b
(round to nearest, ties to even), as an exact rational.  Overflow to infinity
(magnitudes of 2^1024 and beyond) is not modelled; every number arising in this
component is far below that range. -/
def roundF64Pos (a b : Nat) : ℚ :=
  roundAtExp a b (f64Exp a b)

/-- The value of the binary64 number nearest the rational x. -/
def roundF64 (x : ℚ) : ℚ :=
  if x = 0 then 0
  else if 0 < x then roundF64Pos x.num.toNat x.den
  else -roundF64Pos (-x.num).toNat x.den

/-- IEEE-754 binary64 division, the semantics of `/` on JavaScript numbers:
the exact quotient, correctly rounded. -/
def jsDiv (x y : ℚ) : ℚ := roundF64 (x / y)

/-- IEEE-754 binary64 multiplication, the semantics of `*` on JavaScript
numbers: the exact product, correctly rounded. -/
def jsMul (x y : ℚ) : ℚ := roundF64 (x * y)

/-- A stored doctor record as selected from the database
(`typeof doctorsTable.$inferSelect`): integer cents, integer weekdays, and
availability times already in the storage `"HH:MM:SS"` format. -/
structure Doctor where
  id : Nat
  name : String
  specialty : String
  appointmentPriceInCents : Nat
  availableFromWeekDay : Nat
  availableToWeekDay : Nat
  availableFromTime : String
  availableToTime : String
deriving DecidableEq

/-- The form's field values (`z.infer<typeof formSchema>`): strings for the text
and select fields, a number for the price (a binary64 value, carried as the
exact rational it denotes). -/
structure FormValues where
  name : String
  specialty : String
  appointmentPrice : ℚ
  availableFromWeekDay : String
  availableToWeekDay : String
  availableFromTime : String
  availableToTime : String
deriving DecidableEq

/-- A zod issue: the path of the offending field (`[]` would be a top-level
issue) and its human-readable message. -/
structure FieldError where
  path : List String
  message : String
deriving DecidableEq

/-- Issues produced by the base object part of `formSchema`, in field order:
`name` and `specialty` are trimmed before the `min(1)` length check, the price
must be at least 1 (`z.number().min(1)`), the two weekday strings carry no
check, and the two time strings get a plain `min(1)` length check (no trim). -/
def baseFieldIssues (v : FormValues) : List FieldError :=
  (if 1 ≤ (jsTrim v.name).length then [] else [⟨["name"], "Doctor name is required"⟩]) ++
  (if 1 ≤ (jsTrim v.specialty).length then [] else [⟨["specialty"], "Specialty is required"⟩]) ++
  (if 1 ≤ v.appointmentPrice then [] else [⟨["appointmentPrice"], "Appointment price is required"⟩]) ++
  (if 1 ≤ v.availableFromTime.length then [] else [⟨["availableFromTime"], "Start time is required"⟩]) ++
  (if 1 ≤ v.availableToTime.length then [] else [⟨["availableToTime"], "End time is required"⟩])

/-- The value produced by a successful parse of the base object: `name` and
`specialty` come out trimmed (zod's `.trim()` transforms), all other fields are
returned unchanged. -/
def parsedValues (v : FormValues) : FormValues where
  name := jsTrim v.name
  specialty := jsTrim v.specialty
  appointmentPrice := v.appointmentPrice
  availableFromWeekDay := v.availableFromWeekDay
  availableToWeekDay := v.availableToWeekDay
  availableFromTime := v.availableFromTime
  availableToTime := v.availableToTime

/-- Issues produced by the `.refine` step of `formSchema`: when
`availableFromTime < availableToTime` fails (JavaScript string comparison), one
issue with the configured message at path `["availableToTime"]`.  In zod v3 a
refinement on an object runs whenever every field parses at its declared type,
even if some field check above already failed (only a type-level failure aborts
it); since the form's values are statically typed, the refinement always runs.
It receives the parsed (trimmed) value, whose time fields are untouched. -/
def refineIssues (v : FormValues) : List FieldError :=
  if jsStringLt v.availableFromTime v.availableToTime then []
  else [⟨["availableToTime"], "Start time must be before end time"⟩]

/-- All issues `formSchema.safeParse` reports for a candidate value. -/
def formSchemaIssues (v : FormValues) : List FieldError :=
  baseFieldIssues v ++ refineIssues v

/-- Outcome of validating a candidate value against `formSchema`: the parsed
(trimmed) value on success, the list of issues on failure. -/
def formSchemaParse (v : FormValues) : Except (List FieldError) FormValues :=
  match formSchemaIssues v with
  | [] => Except.ok (parsedValues v)
  | es => Except.error es

/-- The `defaultValues` object passed to `useForm` (lines 112–124): each field
comes from the optional `doctor` record, with the same fallbacks as the source —
note the truthiness test on `appointmentPriceInCents` (a stored price of 0
falls back to 0 as well).  The division by 100 is binary64 division, so the
resulting price need not equal the exact rational cents/100. -/
def useFormDefaultValues (doctor : Option Doctor) : FormValues where
  name := (doctor.map Doctor.name).getD ""
  specialty := (doctor.map Doctor.specialty).getD ""
  appointmentPrice :=
    match doctor with
    | some d => if d.appointmentPriceInCents ≠ 0 then jsDiv (d.appointmentPriceInCents : ℚ) 100 else 0
    | none => 0
  availableFromWeekDay := (doctor.map (fun d => toString d.availableFromWeekDay)).getD "1"
  availableToWeekDay := (doctor.map (fun d => toString d.availableToWeekDay)).getD "5"
  availableFromTime := (doctor.map Doctor.availableFromTime).getD ""
  availableToTime := (doctor.map Doctor.availableToTime).getD ""

/-- The object passed to `form.reset` inside the `useEffect` (lines 129–139),
embedded separately so that its agreement with `useFormDefaultValues` is a
theorem rather than an assumption. -/
def resetFormValues (doctor : Option Doctor) : FormValues where
  name := (doctor.map Doctor.name).getD ""
  specialty := (doctor.map Doctor.specialty).getD ""
  appointmentPrice :=
    match doctor with
    | some d => if d.appointmentPriceInCents ≠ 0 then jsDiv (d.appointmentPriceInCents : ℚ) 100 else 0
    | none => 0
  availableFromWeekDay := (doctor.map (fun d => toString d.availableFromWeekDay)).getD "1"
  availableToWeekDay := (doctor.map (fun d => toString d.availableToWeekDay)).getD "5"
  availableFromTime := (doctor.map Doctor.availableFromTime).getD ""
  availableToTime := (doctor.map Doctor.availableToTime).getD ""

/-- The `useEffect` keyed on `isOpen` (lines 127–141): when the dialog is open
the form state is reset to `resetFormValues doctor`, otherwise the current form
state is left alone. -/
def resetOnOpenChange (isOpen : Bool) (doctor : Option Doctor) (current : FormValues) : FormValues :=
  if isOpen then resetFormValues doctor else current

/-- The payload handed to `upsertDoctorAction.execute` (lines 158–167): the
spread of the validated values, plus the optional `id`, the weekday strings
parsed with `parseInt`, and `appointmentPriceInCents := appointmentPrice * 100`
computed in binary64 with no rounding to an integer in the source. -/
structure UpsertPayload where
  id : Option Nat
  name : String
  specialty : String
  appointmentPrice : ℚ
  appointmentPriceInCents : ℚ
  availableFromWeekDay : Option Int
  availableToWeekDay : Option Int
  availableFromTime : String
  availableToTime : String
deriving DecidableEq

/-- Builds the upsert payload from the validated form values, following
`handleSubmit` (lines 156–168). -/
def executeUpsertPayload (doctor : Option Doctor) (values : FormValues) : UpsertPayload where
  id := doctor.map Doctor.id
  name := values.name
  specialty := values.specialty
  appointmentPrice := values.appointmentPrice
  appointmentPriceInCents := jsMul values.appointmentPrice 100
  availableFromWeekDay := jsParseInt values.availableFromWeekDay
  availableToWeekDay := jsParseInt values.availableToWeekDay
  availableFromTime := values.availableFromTime
  availableToTime := values.availableToTime

/-- The whole submit path: `form.handleSubmit(handleSubmit)` first runs the
zod resolver and only calls `handleSubmit` with the parsed values when
validation succeeded; `none` means no remote upsert call was issued. -/
def handleSubmitFlow (doctor : Option Doctor) (v : FormValues) : Option UpsertPayload :=
  match formSchemaParse v with
  | Except.error _ => none
  | Except.ok values => some (executeUpsertPayload doctor values)

/-- Payload of the remote delete call. -/
structure DeletePayload where
  id : Nat
deriving DecidableEq

/-- `handleDeleteDoctorClick` (lines 103–107): returns early (no remote call)
when no doctor record is supplied, otherwise calls the delete action with that
record's id. -/
def handleDeleteDoctorClick (doctor : Option Doctor) : Option DeletePayload :=
  match doctor with
  | none => none
  | some d => some ⟨d.id⟩

/-- The displayed revenue value in `StatsCard` (line 27):
`totalRevenue ? formatCurrencyInCents(totalRevenue) : "R$ 0,00"`.  `none`
models `null`; the JavaScript truthiness test sends both `null` and `0` to the
literal fallback.  The external currency formatter is a parameter. -/
def statsRevenueValue (formatCurrencyInCents : Int → String) (totalRevenue : Option Int) : String :=
  match totalRevenue with
  | some r => if r ≠ 0 then formatCurrencyInCents r else "R$ 0,00"
  | none => "R$ 0,00"

/-- The displayed value of a count stat in `StatsCard` (lines 32, 37, 42):
`total?.toString() ?? "0"`. -/
def statsCountValue (total : Option Int) : String :=
  match total with
  | some n => toString n
  | none => "0"

end Clinic

namespace Clinic

/-! ### Helper lemmas -/

/-- Membership in a guarded singleton issue list. -/
theorem mem_if_nil (c : Prop) [Decidable c] (a b : FieldError) :
    (a ∈ if c then ([] : List FieldError) else [b]) ↔ ¬ c ∧ a = b := by
  by_cases h : c <;> simp [h]

/-- A string passes a `min(1)` length check exactly when it is not empty. -/
theorem one_le_length_iff (s : String) : 1 ≤ s.length ↔ s ≠ "" := by
  cases s with
  | mk data =>
    cases data with
    | nil => simp [String.length]
    | cons c cs => simp [String.length, String.ext_iff]

/-- When the issue list is nonempty, parsing fails with exactly those issues. -/
theorem formSchemaParse_error (v : FormValues) (h : formSchemaIssues v ≠ []) :
    formSchemaParse v = Except.error (formSchemaIssues v) := by
  rcases hl : formSchemaIssues v with _ | ⟨e, es⟩
  · exact absurd hl h
  · unfold formSchemaParse
    rw [hl]

/-- When the issue list is empty, parsing succeeds with the trimmed value. -/
theorem formSchemaParse_ok (v : FormValues) (h : formSchemaIssues v = []) :
    formSchemaParse v = Except.ok (parsedValues v) := by
  unfold formSchemaParse
  rw [h]

/-- `roundAtExp` at a negative exponent: scale the numerator up and divide. -/
theorem roundAtExp_neg (a b s : Nat) (hs : 0 < s) :
    roundAtExp a b (-(s : Int)) = (rneNat (a * 2 ^ s) b : ℚ) / 2 ^ s := by
  have h0 : ¬ (0 : Int) ≤ -(s : Int) := by omega
  simp [roundAtExp, h0]

/-- `roundF64` on the rational a/b in lowest terms rounds the fraction a/b. -/
theorem roundF64_natFrac (a b : Nat) (ha : a ≠ 0) (hb : b ≠ 0) (hco : Nat.Coprime a b) :
    roundF64 ((a : ℚ) / b) = roundF64Pos a b := by
  have hred : ((a : ℤ)).natAbs.Coprime b := by simpa using hco
  have hx : ((a : ℚ) / b) = Rat.mk' a b hb hred := by
    rw [Rat.mk'_eq_divInt, Rat.divInt_eq_div]
    push_cast
    ring
  have hnum : (Rat.mk' (a : ℤ) b hb hred).num = (a : ℤ) := rfl
  have hden : (Rat.mk' (a : ℤ) b hb hred).den = b := rfl
  have hxpos : 0 < Rat.mk' (a : ℤ) b hb hred := by
    rw [← Rat.num_pos, hnum]
    exact_mod_cast Nat.pos_of_ne_zero ha
  rw [hx, roundF64, if_neg (ne_of_gt hxpos), if_pos hxpos, hnum, hden]
  simp

/-- Dividing the stored 1999 cents by 100 in binary64 yields the double nearest
19.99, whose exact value is 5626684784446013/2^48 = 19.989999999999998437… -/
theorem jsDiv_1999_100 : jsDiv (1999 : ℚ) 100 = (5626684784446013 : ℚ) / 2 ^ 48 := by
  have h1 : jsDiv (1999 : ℚ) 100 = roundF64 (((1999 : ℕ) : ℚ) / ((100 : ℕ) : ℚ)) := by
    norm_num [jsDiv]
  rw [h1, roundF64_natFrac 1999 100 (by decide) (by decide) (by decide)]
  have he : f64Exp 1999 100 = -(48 : ℤ) := by decide
  rw [roundF64Pos, he]
  rw [show (-(48 : ℤ)) = -((48 : ℕ) : ℤ) by norm_num]
  rw [roundAtExp_neg 1999 100 48 (by norm_num)]
  norm_num [show rneNat 562668478444601344 100 = 5626684784446013 from by decide]

/-- Multiplying the double 19.99 by 100 in binary64 yields
8791694975696895/2^42 = 1998.9999999999997726…, one grid step below 1999
(which is 8791694975696896/2^42). -/
theorem jsMul_19_99_100 : jsMul ((5626684784446013 : ℚ) / 2 ^ 48) 100
    = (8791694975696895 : ℚ) / 2 ^ 42 := by
  have harg : ((5626684784446013 : ℚ) / 2 ^ 48) * 100
      = ((140667119611150325 : ℕ) : ℚ) / ((70368744177664 : ℕ) : ℚ) := by
    norm_num
  have h1 : jsMul ((5626684784446013 : ℚ) / 2 ^ 48) 100
      = roundF64 (((140667119611150325 : ℕ) : ℚ) / ((70368744177664 : ℕ) : ℚ)) := by
    rw [jsMul, harg]
  rw [h1, roundF64_natFrac _ _ (by decide) (by decide) (by decide)]
  have he : f64Exp 140667119611150325 70368744177664 = -(42 : ℤ) := by decide
  rw [roundF64Pos, he]
  rw [show (-(42 : ℤ)) = -((42 : ℕ) : ℤ) by norm_num]
  rw [roundAtExp_neg _ _ 42 (by norm_num)]
  norm_num [show rneNat 618660534632868744002325708800 70368744177664 = 8791694975696895 from by decide]

/-- 15000/100 is exact in binary64: 150 is representable. -/
theorem jsDiv_15000_100 : jsDiv (15000 : ℚ) 100 = 150 := by
  have h1 : jsDiv (15000 : ℚ) 100 = roundF64 (((150 : ℕ) : ℚ) / ((1 : ℕ) : ℚ)) := by
    norm_num [jsDiv]
  rw [h1, roundF64_natFrac 150 1 (by decide) (by decide) (by decide)]
  have he : f64Exp 150 1 = -(45 : ℤ) := by decide
  rw [roundF64Pos, he]
  rw [show (-(45 : ℤ)) = -((45 : ℕ) : ℤ) by norm_num]
  rw [roundAtExp_neg 150 1 45 (by norm_num)]
  norm_num [show rneNat 5277655813324800 1 = 5277655813324800 from by decide]

/-- 150 * 100 is exact in binary64: 15000 is representable. -/
theorem jsMul_150_100 : jsMul (150 : ℚ) 100 = 15000 := by
  have h1 : jsMul (150 : ℚ) 100 = roundF64 (((15000 : ℕ) : ℚ) / ((1 : ℕ) : ℚ)) := by
    norm_num [jsMul]
  rw [h1, roundF64_natFrac 15000 1 (by decide) (by decide) (by decide)]
  have he : f64Exp 15000 1 = -(39 : ℤ) := by decide
  rw [roundF64Pos, he]
  rw [show (-(39 : ℤ)) = -((39 : ℕ) : ℤ) by norm_num]
  rw [roundAtExp_neg 15000 1 39 (by norm_num)]
  norm_num [show rneNat 8246337208320000 1 = 8246337208320000 from by decide]

/-! ### Claims -/

/-- C1: for every candidate form value where `availableFromTime >= availableToTime`
under the JavaScript string comparison, schema validation fails, and among the
reported issues is one attached to the field path `["availableToTime"]` (not a
top-level path) with the message `Start time must be before end time`. -/
theorem C1_ordering_error_at_availableToTime (v : FormValues)
    (h : jsStringLt v.availableFromTime v.availableToTime = false) :
    (⟨["availableToTime"], "Start time must be before end time"⟩ : FieldError)
      ∈ formSchemaIssues v ∧
    ∀ w, formSchemaParse v ≠ Except.ok w := by
  have hmem : (⟨["availableToTime"], "Start time must be before end time"⟩ : FieldError)
      ∈ formSchemaIssues v := by
    simp [formSchemaIssues, refineIssues, List.mem_append, h]
  refine ⟨hmem, fun w hw => ?_⟩
  have hne : formSchemaIssues v ≠ [] := by
    intro hnil
    rw [hnil] at hmem
    exact List.not_mem_nil _ hmem
  rw [formSchemaParse_error v hne] at hw
  exact Except.noConfusion hw

/-- Witness for C1 on the concrete misordered input `09:00:00` / `08:00:00`. -/
theorem C1_witness :
    jsStringLt "09:00:00" "08:00:00" = false ∧
    (⟨["availableToTime"], "Start time must be before end time"⟩ : FieldError)
      ∈ formSchemaIssues ⟨"a", "general", 1, "1", "5", "09:00:00", "08:00:00"⟩ :=
  ⟨by decide,
    (C1_ordering_error_at_availableToTime
      ⟨"a", "general", 1, "1", "5", "09:00:00", "08:00:00"⟩ (by decide)).1⟩

/-- C2: whenever the form values fail schema validation, the submit path
short-circuits and the remote upsert call is never invoked. -/
theorem C2_no_upsert_call_when_invalid (doctor : Option Doctor) (v : FormValues)
    (h : formSchemaIssues v ≠ []) :
    handleSubmitFlow doctor v = none := by
  unfold handleSubmitFlow
  rw [formSchemaParse_error v h]

/-- Witness for C2 on the spec's scenario `availableFromTime="09:00:00"`,
`availableToTime="08:00:00"`. -/
theorem C2_witness :
    formSchemaIssues ⟨"a", "general", 1, "1", "5", "09:00:00", "08:00:00"⟩ ≠ [] ∧
    handleSubmitFlow none ⟨"a", "general", 1, "1", "5", "09:00:00", "08:00:00"⟩ = none :=
  ⟨by decide, C2_no_upsert_call_when_invalid none _ (by decide)⟩

/-- A stored record on which the spec's round-trip scenario is exact: 15000
cents, shown as 150, re-submitted as 15000 (both conversions land on
representable binary64 values). -/
def doctor15000 : Doctor where
  id := 2
  name := "Jane"
  specialty := "dermatology"
  appointmentPriceInCents := 15000
  availableFromWeekDay := 1
  availableToWeekDay := 5
  availableFromTime := "09:00:00"
  availableToTime := "10:00:00"

/-- A stored record on which the round-trip breaks: 1999 cents, shown as the
double nearest 19.99, re-submitted as 1998.9999999999997726… -/
def doctor1999 : Doctor where
  id := 1
  name := "John"
  specialty := "cardiology"
  appointmentPriceInCents := 1999
  availableFromWeekDay := 1
  availableToWeekDay := 5
  availableFromTime := "09:00:00"
  availableToTime := "10:00:00"

/-- C3 fails on the code at 1999 cents: the spec's own scenario (15000 cents →
150 → 15000) is exact, and the weekdays round-trip, but initializing from 1999
cents gives the double 5626684784446013/2^48 (nearest 19.99), and multiplying
it back by 100 in binary64 gives 8791694975696895/2^42 = 1998.9999999999997726…,
not the original integer 1999 — the code lacks the rounding the claimed
round-trip needs. -/
theorem C3_round_trip_fails_at_1999 :
    (executeUpsertPayload (some doctor15000)
        (useFormDefaultValues (some doctor15000))).appointmentPriceInCents = 15000 ∧
    (useFormDefaultValues (some doctor1999)).appointmentPrice
      = (5626684784446013 : ℚ) / 2 ^ 48 ∧
    (executeUpsertPayload (some doctor1999)
        (useFormDefaultValues (some doctor1999))).appointmentPriceInCents
      = (8791694975696895 : ℚ) / 2 ^ 42 ∧
    (executeUpsertPayload (some doctor1999)
        (useFormDefaultValues (some doctor1999))).appointmentPriceInCents
      ≠ (doctor1999.appointmentPriceInCents : ℚ) ∧
    (executeUpsertPayload (some doctor1999)
        (useFormDefaultValues (some doctor1999))).availableFromWeekDay = some 1 ∧
    (executeUpsertPayload (some doctor1999)
        (useFormDefaultValues (some doctor1999))).availableToWeekDay = some 5 := by
  have hp15 : (useFormDefaultValues (some doctor15000)).appointmentPrice = 150 := by
    norm_num [useFormDefaultValues, doctor15000, jsDiv_15000_100]
  have hpay15 : (executeUpsertPayload (some doctor15000)
      (useFormDefaultValues (some doctor15000))).appointmentPriceInCents
      = jsMul (useFormDefaultValues (some doctor15000)).appointmentPrice 100 := rfl
  have hp19 : (useFormDefaultValues (some doctor1999)).appointmentPrice
      = (5626684784446013 : ℚ) / 2 ^ 48 := by
    norm_num [useFormDefaultValues, doctor1999, jsDiv_1999_100]
  have hpay19 : (executeUpsertPayload (some doctor1999)
      (useFormDefaultValues (some doctor1999))).appointmentPriceInCents
      = jsMul (useFormDefaultValues (some doctor1999)).appointmentPrice 100 := rfl
  have hval19 : (executeUpsertPayload (some doctor1999)
      (useFormDefaultValues (some doctor1999))).appointmentPriceInCents
      = (8791694975696895 : ℚ) / 2 ^ 42 := by
    rw [hpay19, hp19, jsMul_19_99_100]
  refine ⟨?_, hp19, hval19, ?_, by decide, by decide⟩
  · rw [hpay15, hp15, jsMul_150_100]
  · rw [hval19]
    norm_num [doctor1999]

end Clinic

namespace Clinic

/-- The input refuting C4 as stated: every required field is non-empty, the
times are ordered, and the price is positive, yet validation fails (the name is
whitespace-only so it trims to empty, and the price is below the schema's
minimum of 1). -/
def c4Input : FormValues where
  name := " "
  specialty := "general"
  appointmentPrice := 1 / 2
  availableFromWeekDay := "1"
  availableToWeekDay := "5"
  availableFromTime := "08:00:00"
  availableToTime := "09:00:00"

/-- C4 counterexample: `c4Input` satisfies every hypothesis of the claim as
stated — non-empty `name`, `specialty` and time fields, ordered times, price
strictly positive — but schema validation does not succeed. -/
theorem C4_counterexample :
    c4Input.name ≠ "" ∧ c4Input.specialty ≠ "" ∧
    c4Input.availableFromTime ≠ "" ∧ c4Input.availableToTime ≠ "" ∧
    jsStringLt c4Input.availableFromTime c4Input.availableToTime = true ∧
    0 < c4Input.appointmentPrice ∧
    formSchemaIssues c4Input ≠ [] := by
  have h1 : ¬ 1 ≤ (jsTrim c4Input.name).length := by decide
  have hmem : (⟨["name"], "Doctor name is required"⟩ : FieldError) ∈ formSchemaIssues c4Input := by
    simp [formSchemaIssues, baseFieldIssues, List.mem_append, h1]
  refine ⟨by decide, by decide, by decide, by decide, by decide, by norm_num [c4Input], ?_⟩
  intro hnil
  rw [hnil] at hmem
  exact List.not_mem_nil _ hmem

/-- C4 (amended): validation succeeds for every candidate whose `name` and
`specialty` are non-empty after trimming, whose time fields are non-empty,
whose times are strictly ordered, and whose price is at least 1 (the schema's
`min(1)` threshold, rather than merely positive). -/
theorem C4_amended_validation_succeeds (v : FormValues)
    (hn : jsTrim v.name ≠ "") (hs : jsTrim v.specialty ≠ "")
    (hf : v.availableFromTime ≠ "") (ht : v.availableToTime ≠ "")
    (hlt : jsStringLt v.availableFromTime v.availableToTime = true)
    (hp : 1 ≤ v.appointmentPrice) :
    formSchemaParse v = Except.ok (parsedValues v) := by
  apply formSchemaParse_ok
  have h1 := (one_le_length_iff (jsTrim v.name)).2 hn
  have h2 := (one_le_length_iff (jsTrim v.specialty)).2 hs
  have h4 := (one_le_length_iff v.availableFromTime).2 hf
  have h5 := (one_le_length_iff v.availableToTime).2 ht
  simp [formSchemaIssues, baseFieldIssues, refineIssues, h1, h2, h4, h5, hp, hlt]

/-- Witness for the amended C4 on a fully valid input. -/
theorem C4_witness :
    jsTrim ("John" : String) ≠ "" ∧ (1 : ℚ) ≤ 150 ∧
    formSchemaParse ⟨"John", "general", 150, "1", "5", "09:00:00", "10:00:00"⟩
      = Except.ok (parsedValues ⟨"John", "general", 150, "1", "5", "09:00:00", "10:00:00"⟩) :=
  ⟨by decide, by norm_num,
    C4_amended_validation_succeeds ⟨"John", "general", 150, "1", "5", "09:00:00", "10:00:00"⟩
      (by decide) (by decide) (by decide) (by decide) (by decide) (by norm_num)⟩

/-- The input refuting C5 as stated: `availableFromTime` is whitespace-only,
hence empty after trimming, but the schema does not trim the time fields. -/
def c5Input : FormValues where
  name := "a"
  specialty := "general"
  appointmentPrice := 1
  availableFromWeekDay := "1"
  availableToWeekDay := "5"
  availableFromTime := " "
  availableToTime := "09:00:00"

/-- C5 counterexample: `availableFromTime` of `c5Input` is empty after trimming,
yet validation reports no issue at all (the whitespace string has length 1 and
even satisfies the ordering refinement), contradicting the claim that a
required-field error occurs exactly when a field is empty after trimming. -/
theorem C5_counterexample :
    jsTrim c5Input.availableFromTime = "" ∧ formSchemaIssues c5Input = [] := by
  constructor
  · decide
  · decide

/-- C5 (amended): `name` and `specialty` produce their required-field error
exactly when empty after trimming (whitespace-only counts as empty), while
`availableFromTime` and `availableToTime` produce theirs exactly when the raw
string is empty — no trimming is applied to the time fields. -/
theorem C5_required_field_errors (v : FormValues) :
    ((⟨["name"], "Doctor name is required"⟩ : FieldError) ∈ formSchemaIssues v
      ↔ jsTrim v.name = "") ∧
    ((⟨["specialty"], "Specialty is required"⟩ : FieldError) ∈ formSchemaIssues v
      ↔ jsTrim v.specialty = "") ∧
    ((⟨["availableFromTime"], "Start time is required"⟩ : FieldError) ∈ formSchemaIssues v
      ↔ v.availableFromTime = "") ∧
    ((⟨["availableToTime"], "End time is required"⟩ : FieldError) ∈ formSchemaIssues v
      ↔ v.availableToTime = "") := by
  simp [formSchemaIssues, baseFieldIssues, refineIssues, List.mem_append, mem_if_nil,
    one_le_length_iff, FieldError.mk.injEq]

end Clinic

namespace Clinic

/-- The number the form's numeric input holds after the user types 19.99: the
binary64 value nearest 1999/100. -/
def price19_99 : ℚ := roundF64 ((1999 : ℚ) / 100)

/-- A fully valid form value whose price is the double 19.99. -/
def v19_99 : FormValues where
  name := "John"
  specialty := "general"
  appointmentPrice := price19_99
  availableFromWeekDay := "1"
  availableToWeekDay := "5"
  availableFromTime := "09:00:00"
  availableToTime := "10:00:00"

/-- The exact value of the double 19.99. -/
theorem price19_99_eq : price19_99 = (5626684784446013 : ℚ) / 2 ^ 48 :=
  jsDiv_1999_100

/-- C6 fails on the code at a price of 19.99: the form value validates, and
round(price * 100) is the integer 1999, but the payload carries the binary64
product 8791694975696895/2^42 = 1998.9999999999997726…, which differs from
round(price * 100) and is not an integer at all — the source multiplies by 100
without any rounding. -/
theorem C6_cents_not_rounded_at_19_99 :
    formSchemaIssues v19_99 = [] ∧
    (round (v19_99.appointmentPrice * 100) : ℤ) = 1999 ∧
    (executeUpsertPayload none (parsedValues v19_99)).appointmentPriceInCents
      ≠ ((round (v19_99.appointmentPrice * 100) : ℤ) : ℚ) ∧
    ∀ n : ℤ, (executeUpsertPayload none (parsedValues v19_99)).appointmentPriceInCents
      ≠ (n : ℚ) := by
  have hprice : v19_99.appointmentPrice = (5626684784446013 : ℚ) / 2 ^ 48 := price19_99_eq
  have hround : (round (v19_99.appointmentPrice * 100) : ℤ) = 1999 := by
    rw [hprice, round_eq, Int.floor_eq_iff]
    constructor <;> norm_num
  have hpay : (executeUpsertPayload none (parsedValues v19_99)).appointmentPriceInCents
      = jsMul v19_99.appointmentPrice 100 := rfl
  have hval : (executeUpsertPayload none (parsedValues v19_99)).appointmentPriceInCents
      = (8791694975696895 : ℚ) / 2 ^ 42 := by
    rw [hpay, hprice, jsMul_19_99_100]
  have h1 : 1 ≤ (jsTrim v19_99.name).length := by decide
  have h2 : 1 ≤ (jsTrim v19_99.specialty).length := by decide
  have h3 : 1 ≤ v19_99.appointmentPrice := by
    rw [hprice]
    norm_num
  have h4 : 1 ≤ v19_99.availableFromTime.length := by decide
  have h5 : 1 ≤ v19_99.availableToTime.length := by decide
  have h6 : jsStringLt v19_99.availableFromTime v19_99.availableToTime = true := by decide
  refine ⟨?_, hround, ?_, ?_⟩
  · simp [formSchemaIssues, baseFieldIssues, refineIssues, h1, h2, h3, h4, h5, h6]
  · rw [hval, hround]
    norm_num
  · intro n h
    rw [hval, div_eq_iff (by norm_num : ((2 : ℚ) ^ 42) ≠ 0)] at h
    have h2i : (8791694975696895 : ℤ) = n * 2 ^ 42 := by exact_mod_cast h
    omega

/-- C7: whenever the hosting dialog's visibility transitions to open, every form
field is re-initialized from the currently supplied record if present — name,
specialty, price via the binary64 division cents / 100, weekdays stringified,
times verbatim — and otherwise to the fixed defaults (price 0, weekdays "1" and
"5", empty time strings); the result is independent of whatever stale form
state was left by a previous record. -/
theorem C7_reset_on_dialog_open (doctor : Option Doctor) (d : Doctor) (a b : FormValues) :
    resetOnOpenChange true doctor a = resetFormValues doctor ∧
    resetOnOpenChange true doctor a = resetOnOpenChange true doctor b ∧
    (resetFormValues (some d)).name = d.name ∧
    (resetFormValues (some d)).specialty = d.specialty ∧
    (resetFormValues (some d)).appointmentPrice = jsDiv (d.appointmentPriceInCents : ℚ) 100 ∧
    (resetFormValues (some d)).availableFromWeekDay = toString d.availableFromWeekDay ∧
    (resetFormValues (some d)).availableToWeekDay = toString d.availableToWeekDay ∧
    (resetFormValues (some d)).availableFromTime = d.availableFromTime ∧
    (resetFormValues (some d)).availableToTime = d.availableToTime ∧
    resetFormValues none = ⟨"", "", 0, "1", "5", "", ""⟩ := by
  refine ⟨rfl, rfl, rfl, rfl, ?_, rfl, rfl, rfl, rfl, rfl⟩
  by_cases h : d.appointmentPriceInCents = 0
  · simp [resetFormValues, h, jsDiv, roundF64]
  · simp [resetFormValues, h]

/-- C8: the delete handler is a guarded no-op — with no record supplied it
issues no remote call, and with a record supplied it issues the remote delete
call with exactly that record's id. -/
theorem C8_delete_is_guarded (d : Doctor) :
    handleDeleteDoctorClick none = none ∧
    handleDeleteDoctorClick (some d) = some ⟨d.id⟩ :=
  ⟨rfl, rfl⟩

/-- C9: the field-initialization mapping used for `useForm`'s `defaultValues`
and the mapping used by the dialog-open reset effect are the same function on
every optional record. -/
theorem C9_defaults_eq_reset (doctor : Option Doctor) :
    useFormDefaultValues doctor = resetFormValues doctor :=
  rfl

/-- C10: in the stats card, a `null` or zero total revenue displays the literal
`R$ 0,00` without invoking the currency formatter, a `null` count displays
`"0"`, and a non-null count displays the decimal string of the number. -/
theorem C10_stats_card_display (fmt : Int → String) (n : Int) :
    statsRevenueValue fmt none = "R$ 0,00" ∧
    statsRevenueValue fmt (some 0) = "R$ 0,00" ∧
    statsCountValue none = "0" ∧
    statsCountValue (some n) = toString n := by
  refine ⟨rfl, ?_, rfl, rfl⟩
  simp [statsRevenueValue]

end Clinic
